import Mathlib

/-!
Verification development for the EcoBite inventory server.

The repository contains several near-duplicate Express server variants:
* src/server.js          - "Final Server" with email OTP registration (table food_items)
* src/unnamed/part_000 and src/unnamed/part_001
                         - food_items variants with strict validation and a
                           checked donate handler (404 / 400 before transition)
* src/src/server.js      - notifications variant (table inventory, fixDate
                           shifting, createNotification side effects)
* src/auth.js            - JWT sign/verify helpers and the authRequired /
                           optionalAuth middleware

This file shallowly embeds the pure parts of those handlers: calendar dates
are integer day numbers (both operands of every comparison in the source are
truncated to midnight), JavaScript numbers that hold quantities are rationals,
database tables are lists of rows, and each HTTP handler becomes a function
from its inputs and the table state to a response value and the new state.
-/

/-- Display status values produced by the read paths.  The source represents
them as the strings "expired", "near_expiry", "available" and "donated". -/
inductive Status where
  | expired
  | near_expiry
  | available
  | donated
deriving DecidableEq, Repr

/-- Ceiling division on integers, the value of Math.ceil(a / b) for integer
operands and positive b (integer division on ℤ is euclidean, hence floor for
a positive divisor; negating twice turns it into ceiling). -/
def ceilDiv (a b : ℤ) : ℤ := -((-a) / b)

/-- Millisecond-level embedding of computeStatus from src/server.js lines
197-206 (identical in part_000, part_001 and src/src/server.js):
today is truncated to midnight, exp is the parsed expiry date, and
diff = Math.ceil((exp - today) / 86400000). -/
def computeStatusMs (expMs todayMs : ℤ) : Status :=
  if expMs < todayMs then .expired
  else if ceilDiv (expMs - todayMs) 86400000 ≤ 3 then .near_expiry
  else .available

/-- computeStatus on calendar dates given as day numbers: a day number d
denotes the midnight timestamp d * 86400000 ms, matching the date-only
comparison performed by the source. -/
def computeStatus (expiry today : ℤ) : Status :=
  computeStatusMs (expiry * 86400000) (today * 86400000)

theorem ceilDiv_day (d : ℤ) : ceilDiv (d * 86400000) 86400000 = d := by
  unfold ceilDiv
  rw [show -(d * 86400000) = (-d) * 86400000 by ring,
      Int.mul_ediv_cancel _ (by norm_num : (86400000 : ℤ) ≠ 0)]
  ring

/-- On day-aligned inputs the millisecond arithmetic collapses to integer
day arithmetic. -/
theorem computeStatus_eq (expiry today : ℤ) :
    computeStatus expiry today =
      if expiry < today then Status.expired
      else if expiry - today ≤ 3 then Status.near_expiry
      else Status.available := by
  unfold computeStatus computeStatusMs
  have h1 : expiry * 86400000 - today * 86400000 = (expiry - today) * 86400000 := by ring
  rw [h1, ceilDiv_day]
  have h2 : (expiry * 86400000 < today * 86400000) ↔ expiry < today := by omega
  simp only [h2]

theorem computeStatus_ne_donated (expiry today : ℤ) :
    computeStatus expiry today ≠ Status.donated := by
  rw [computeStatus_eq]
  split_ifs <;> simp

/-- C4: `computeStatus` classifies dates as the spec states: strictly past
dates are expired, a difference of 0..3 days is near_expiry, more than 3 days
is available; in particular today - 1 is expired, today and today + 3 are
near_expiry, and today + 4 is available. -/
theorem C4_computeStatus (e t : ℤ) :
    (e < t → computeStatus e t = .expired) ∧
    (0 ≤ e - t → e - t ≤ 3 → computeStatus e t = .near_expiry) ∧
    (3 < e - t → computeStatus e t = .available) ∧
    computeStatus (t - 1) t = .expired ∧
    computeStatus t t = .near_expiry ∧
    computeStatus (t + 3) t = .near_expiry ∧
    computeStatus (t + 4) t = .available := by
  rw [computeStatus_eq, computeStatus_eq, computeStatus_eq, computeStatus_eq, computeStatus_eq]
  refine ⟨fun h => ?_, fun h1 h2 => ?_, fun h => ?_, ?_, ?_, ?_, ?_⟩ <;>
    split_ifs <;> first | rfl | omega

theorem C4_computeStatus_witness :
    computeStatus 4 5 = .expired ∧ computeStatus 5 5 = .near_expiry ∧
    computeStatus 8 5 = .near_expiry ∧ computeStatus 9 5 = .available :=
  ⟨(C4_computeStatus 4 5).1 (by decide),
   (C4_computeStatus 5 5).2.1 (by decide) (by decide),
   (C4_computeStatus 8 5).2.1 (by decide) (by decide),
   (C4_computeStatus 9 5).2.2.1 (by decide)⟩

/-- JavaScript runtime errors relevant to the embedded handlers. -/
inductive JsErr where
  | typeError
deriving DecidableEq, Repr

/-- Result of running a JavaScript expression that can throw. -/
inductive JsOutcome (α : Type) where
  | thrown (e : JsErr)
  | value (v : α)
deriving DecidableEq, Repr

/-- JavaScript values that can appear in a JSON request body field.  Numbers
are modelled as rationals. -/
inductive JsVal where
  | str (s : String)
  | num (q : ℚ)
  | boolean (b : Bool)
  | jsNull
  | undef
deriving DecidableEq, Repr

/-- Model of String.prototype.trim: remove leading and trailing whitespace
characters. -/
def jsTrimStr (s : String) : String :=
  ⟨((s.data.dropWhile Char.isWhitespace).reverse.dropWhile Char.isWhitespace).reverse⟩

/-- Evaluation of v.trim(): defined only on strings, a TypeError otherwise
(in particular on undefined, i.e. an absent body field). -/
def jsTrim : JsVal → JsOutcome String
  | .str s => .value (jsTrimStr s)
  | _ => .thrown .typeError

/-- The JavaScript number 2.5 as a rational. -/
def twoPointFive : ℚ := ⟨5, 2, by decide, by decide⟩

/-- JavaScript falsiness of a value (the !v test). -/
def jsFalsy : JsVal → Bool
  | .str s => s = ""
  | .num q => q = 0
  | .boolean b => !b
  | .jsNull => true
  | .undef => true

namespace FoodSrv

/-!
Embedding of the food_items server variants: src/server.js (the OTP
variant) together with src/unnamed/part_000 and src/unnamed/part_001, which
share the same inventory read paths, checked donate handler and report
aggregation.
-/

/-- Row of the food_items table.  user_id is nullable: a NULL owner denotes a
shared item visible to every user.  status is the persisted state column,
"donated" for donated items. -/
structure FoodRow where
  id : ℕ
  user_id : Option ℕ
  name : String
  quantity : ℚ
  category : String
  expiry_date : ℤ
  status : String
deriving DecidableEq, Repr

/-- validateItem from src/server.js lines 188-195: name must be truthy and
trim to a non-empty string, Number(quantity) must be a positive integer, and
category must be one of the fixed enumeration.  A missing or non-string name
is caught by the falsiness test before .trim() is reached. -/
def validateItem (name : JsVal) (quantity : ℚ) (category : String) :
    JsOutcome (Option String) :=
  if jsFalsy name then .value (some "Name required")
  else
    match jsTrim name with
    | .thrown e => .thrown e
    | .value t =>
      if t = "" then .value (some "Name required")
      else if quantity.den ≠ 1 ∨ quantity ≤ 0 then .value (some "Quantity must be positive")
      else if category ∉ (["Refrigerated", "Pantry", "Frozen"] : List String) then
        .value (some "Category invalid")
      else .value none

/-- Status attached to each row by the GET /inventory list mapping
(src/server.js lines 215-218, part_001 lines 76-79): the persisted
"donated" state is sticky, otherwise the status is derived from the date. -/
def displayStatus (r : FoodRow) (today : ℤ) : Status :=
  if r.status = "donated" then .donated else computeStatus r.expiry_date today

/-- Status attached to the refreshed item returned by PUT /inventory/:id
(part_000 line 179, part_001 line 113). -/
def updateReturnStatus (r : FoodRow) (today : ℤ) : Status :=
  if r.status = "donated" then .donated else computeStatus r.expiry_date today

/-- Status counter chosen for a row by the classification inside the
GET /report loop (src/server.js lines 271-277). -/
def reportStatusBucket (r : FoodRow) (today : ℤ) : Status :=
  if r.status = "donated" then .donated else computeStatus r.expiry_date today

/-- Report accumulator object of the GET /report handler (src/server.js
lines 264-267): three category counters and four status counters sharing one
record, exactly as the source shares one JavaScript object. -/
structure Report where
  pantry : ℕ
  refrigerated : ℕ
  frozen : ℕ
  donated : ℕ
  expired : ℕ
  nearExpiry : ℕ
  available : ℕ
deriving DecidableEq, Repr

def emptyReport : Report := ⟨0, 0, 0, 0, 0, 0, 0⟩

/-- Category step of the report loop: report[r.category]++ whenever
r.category is one of the seven keys present on the report object
(src/server.js line 270). -/
def bumpCategory (rep : Report) (c : String) : Report :=
  if c = "Pantry" then { rep with pantry := rep.pantry + 1 }
  else if c = "Refrigerated" then { rep with refrigerated := rep.refrigerated + 1 }
  else if c = "Frozen" then { rep with frozen := rep.frozen + 1 }
  else if c = "Donated" then { rep with donated := rep.donated + 1 }
  else if c = "Expired" then { rep with expired := rep.expired + 1 }
  else if c = "NearExpiry" then { rep with nearExpiry := rep.nearExpiry + 1 }
  else if c = "Available" then { rep with available := rep.available + 1 }
  else rep

/-- Status step of the report loop (src/server.js lines 271-277). -/
def bumpStatus (rep : Report) : Status → Report
  | .donated => { rep with donated := rep.donated + 1 }
  | .expired => { rep with expired := rep.expired + 1 }
  | .near_expiry => { rep with nearExpiry := rep.nearExpiry + 1 }
  | .available => { rep with available := rep.available + 1 }

/-- Body of the for loop of the GET /report handler: the category counter is
bumped first, then exactly one status counter. -/
def reportStep (today : ℤ) (rep : Report) (r : FoodRow) : Report :=
  bumpStatus (bumpCategory rep r.category) (reportStatusBucket r today)

/-- GET /report aggregation over the visible rows (src/server.js
lines 264-279). -/
def summarize (rows : List FoodRow) (today : ℤ) : Report :=
  rows.foldl (reportStep today) emptyReport

/-- Sum of the four status counters of a report. -/
def statusSum (rep : Report) : ℕ :=
  rep.donated + rep.expired + rep.nearExpiry + rep.available

/-- Visibility predicate of the donate SELECT (part_000 lines 194-197):
WHERE id = ? AND (user_id = ? OR user_id IS NULL). -/
def visibleRow (itemId ownerId : ℕ) (r : FoodRow) : Bool :=
  r.id == itemId && (r.user_id == some ownerId || r.user_id == none)

/-- First row returned by the donate SELECT: rows[0]. -/
def findVisible (db : List FoodRow) (itemId ownerId : ℕ) : Option FoodRow :=
  db.find? (visibleRow itemId ownerId)

/-- Row transformation of the donate UPDATE (part_000 line 201):
UPDATE food_items SET status = donated WHERE id = ?. -/
def setDonated (itemId : ℕ) (r : FoodRow) : FoodRow :=
  if r.id == itemId then { r with status := "donated" } else r

/-- Observable outcome of the checked donate handler. -/
inductive DonateResult where
  | notFound
  | alreadyDonated
  | ok (row : Option FoodRow)
deriving DecidableEq, Repr

/-- POST /inventory/:id/donate handler of part_000 lines 192-205 (identical
in part_001 lines 126-140): 404 when no visible row matches, 400 when the
row is already donated, otherwise update and return the re-selected row. -/
def donate (db : List FoodRow) (itemId ownerId : ℕ) :
    DonateResult × List FoodRow :=
  match findVisible db itemId ownerId with
  | none => (.notFound, db)
  | some item =>
    if item.status = "donated" then (.alreadyDonated, db)
    else
      let db2 := db.map (setDonated itemId)
      (.ok (db2.find? (fun r => r.id == itemId)), db2)

end FoodSrv

/-- C1: a persisted "donated" state is sticky on every read path: the
GET /inventory list mapping, the status attached to the item returned by
update, and the report classification all yield donated for such an item, for
every expiry date; and the date-based computation can never produce donated,
so it is not the source of that value. -/
theorem C1_donated_sticky (r : FoodSrv.FoodRow) (today : ℤ)
    (h : r.status = "donated") :
    FoodSrv.displayStatus r today = .donated ∧
    FoodSrv.updateReturnStatus r today = .donated ∧
    FoodSrv.reportStatusBucket r today = .donated ∧
    (∀ e t : ℤ, computeStatus e t ≠ Status.donated) := by
  refine ⟨?_, ?_, ?_, fun e t => computeStatus_ne_donated e t⟩ <;>
    simp [FoodSrv.displayStatus, FoodSrv.updateReturnStatus, FoodSrv.reportStatusBucket, h]

namespace NotifSrv

/-!
Embedding of the notifications server variant src/src/server.js: inventory
table with a non-nullable user_id column, fixDate shifting of submitted
expiry dates, createNotification side effects, and an unchecked donate
handler.
-/

/-- Row of the inventory table of the notifications variant.  Newly inserted
rows carry the persisted state "normal"; donate sets it to "donated". -/
structure InvRow where
  id : ℕ
  user_id : ℕ
  name : String
  quantity : ℚ
  category : String
  expiry_date : ℤ
  status : String
deriving DecidableEq, Repr

/-- Record inserted by createNotification (src/src/server.js lines 41-51). -/
structure Notification where
  user_id : ℕ
  title : String
  message : String
deriving DecidableEq, Repr

/-- validateItem from src/src/server.js lines 175-184.  name.trim() is
dereferenced with no preceding presence check, so a non-string name throws;
the quantity test is only !Number(quantity) || Number(quantity) <= 0, with no
integer check. -/
def validateItem (name : JsVal) (quantity : ℚ) (category : String) :
    JsOutcome (Option String) :=
  match jsTrim name with
  | .thrown e => .thrown e
  | .value t =>
    if t = "" then .value (some "Name required")
    else if quantity = 0 ∨ quantity ≤ 0 then .value (some "Quantity must be positive")
    else if category ∉ (["Refrigerated", "Pantry", "Frozen"] : List String) then
      .value (some "Category invalid")
    else .value none

/-- fixDate from src/src/server.js lines 186-190 on calendar day numbers:
parse the submitted date, advance it by one day, and format it back. -/
def fixDate (d : ℤ) : ℤ := d + 1

/-- Response produced by the POST /inventory handler on success
(src/src/server.js lines 246-253). -/
structure ItemResp where
  id : ℕ
  name : JsVal
  quantity : ℚ
  category : String
  expiry_date : ℤ
  status : String
deriving DecidableEq, Repr

/-- Observable outcome of the POST /inventory handler: a TypeError thrown
out of validateItem, a 400 validation response, or a 201-style created
response. -/
inductive PostResult where
  | thrown (e : JsErr)
  | badRequest (err : String)
  | created (resp : ItemResp)
deriving DecidableEq, Repr

/-- POST /inventory handler of the notifications variant (src/src/server.js
lines 225-257): validate, shift the submitted expiry date with fixDate,
insert the row, create a notification, and echo the shifted date back.
The notification message interpolates the request name; the numeric
quantity interpolation is elided. -/
def postInventory (db : List InvRow) (notifs : List Notification) (userId : ℕ)
    (name : JsVal) (quantity : ℚ) (category : String) (expiry_date : ℤ)
    (nextId : ℕ) : PostResult × List InvRow × List Notification :=
  match validateItem name quantity category with
  | .thrown e => (.thrown e, db, notifs)
  | .value (some err) => (.badRequest err, db, notifs)
  | .value none =>
    match jsTrim name with
    | .thrown e => (.thrown e, db, notifs)
    | .value nm =>
      let finalDate := fixDate expiry_date
      (.created ⟨nextId, name, quantity, category, finalDate, "available"⟩,
       db ++ [⟨nextId, userId, nm, quantity, category, finalDate, "normal"⟩],
       notifs ++ [⟨userId, "New Item Added", "You added " ++ nm⟩])

/-- Row transformation of the PUT /inventory/:id UPDATE statement
(src/src/server.js lines 270-274): rows matching both the id and the
requesting user are overwritten with the validated fields and the shifted
date. -/
def updateRow (itemId userId : ℕ) (nm : String) (q : ℚ) (c : String) (d : ℤ)
    (r : InvRow) : InvRow :=
  if r.id == itemId && r.user_id == userId then
    { r with name := nm, quantity := q, category := c, expiry_date := d }
  else r

/-- Observable outcome of the PUT /inventory/:id handler; ok carries the raw
re-selected row (rows[0], which may be absent). -/
inductive PutResult where
  | thrown (e : JsErr)
  | badRequest (err : String)
  | ok (row : Option InvRow)
deriving DecidableEq, Repr

/-- PUT /inventory/:id handler of the notifications variant
(src/src/server.js lines 263-281). -/
def putInventory (db : List InvRow) (itemId userId : ℕ) (name : JsVal)
    (quantity : ℚ) (category : String) (expiry_date : ℤ) :
    PutResult × List InvRow :=
  match validateItem name quantity category with
  | .thrown e => (.thrown e, db)
  | .value (some err) => (.badRequest err, db)
  | .value none =>
    match jsTrim name with
    | .thrown e => (.thrown e, db)
    | .value nm =>
      let finalDate := fixDate expiry_date
      let db2 := db.map (updateRow itemId userId nm quantity category finalDate)
      (.ok (db2.find? (fun r => r.id == itemId)), db2)

/-- Row transformation of the unconditional donate UPDATE
(src/src/server.js lines 307-310). -/
def donateRow (itemId userId : ℕ) (r : InvRow) : InvRow :=
  if r.id == itemId && r.user_id == userId then { r with status := "donated" } else r

/-- POST /inventory/:id/donate handler of the notifications variant
(src/src/server.js lines 306-323): no existence check, no already-donated
check; it always updates, always creates a notification, and returns the
re-selected row. -/
def donate (db : List InvRow) (notifs : List Notification) (itemId userId : ℕ) :
    Option InvRow × List InvRow × List Notification :=
  let db2 := db.map (donateRow itemId userId)
  let notifs2 := notifs ++ [⟨userId, "Item Donated", "You donated an inventory item"⟩]
  (db2.find? (fun r => r.id == itemId), db2, notifs2)

end NotifSrv

theorem C1_donated_sticky_witness :
    FoodSrv.displayStatus ⟨1, some 7, "Milk", 1, "Pantry", 0, "donated"⟩ 100 = .donated ∧
    FoodSrv.updateReturnStatus ⟨1, some 7, "Milk", 1, "Pantry", 0, "donated"⟩ 100 = .donated ∧
    FoodSrv.reportStatusBucket ⟨1, some 7, "Milk", 1, "Pantry", 0, "donated"⟩ 100 = .donated ∧
    (∀ e t : ℤ, computeStatus e t ≠ Status.donated) :=
  C1_donated_sticky ⟨1, some 7, "Milk", 1, "Pantry", 0, "donated"⟩ 100 (by decide)

theorem visibleRow_setDonated (itemId ownerId i : ℕ) (r : FoodSrv.FoodRow) :
    FoodSrv.visibleRow itemId ownerId (FoodSrv.setDonated i r) =
      FoodSrv.visibleRow itemId ownerId r := by
  unfold FoodSrv.setDonated
  split <;> rfl

theorem findVisible_map_setDonated (db : List FoodSrv.FoodRow) (itemId ownerId i : ℕ) :
    FoodSrv.findVisible (db.map (FoodSrv.setDonated i)) itemId ownerId =
      Option.map (FoodSrv.setDonated i) (FoodSrv.findVisible db itemId ownerId) := by
  unfold FoodSrv.findVisible
  have hp : (FoodSrv.visibleRow itemId ownerId ∘ FoodSrv.setDonated i) =
      FoodSrv.visibleRow itemId ownerId := by
    funext r
    exact visibleRow_setDonated itemId ownerId i r
  rw [List.find?_map, hp]

/-- C2 counterexample: in the notifications variant, donating an item whose
persisted state is already "donated" is not rejected — the call leaves the
row unchanged yet emits a notification, and a second donate call on the same
item emits a second notification. -/
theorem C2_counterexample :
    ((NotifSrv.donate [⟨1, 7, "Milk", 1, "Pantry", 5, "donated"⟩] [] 1 7).2.2.length = 1 ∧
     (NotifSrv.donate
        (NotifSrv.donate [⟨1, 7, "Milk", 1, "Pantry", 5, "donated"⟩] [] 1 7).2.1
        (NotifSrv.donate [⟨1, 7, "Milk", 1, "Pantry", 5, "donated"⟩] [] 1 7).2.2 1 7).2.2.length = 2 ∧
     (NotifSrv.donate [⟨1, 7, "Milk", 1, "Pantry", 5, "donated"⟩] [] 1 7).2.1 =
       [⟨1, 7, "Milk", 1, "Pantry", 5, "donated"⟩]) := by
  decide

/-- C2 amended: in the food_items variants the donate handler returns 404
when no visible matching item exists, 400 when the item is already donated
(state unchanged in both cases), and only otherwise transitions the item to
donated, after which a second donate call on the same item is rejected with
400 and leaves the state unchanged; those variants emit no notifications.
The notifications variant instead performs no check and emits a notification
on every donate call. -/
theorem C2_donate_amended (db : List FoodSrv.FoodRow) (itemId ownerId : ℕ) :
    (FoodSrv.findVisible db itemId ownerId = none →
      FoodSrv.donate db itemId ownerId = (.notFound, db)) ∧
    (∀ item, FoodSrv.findVisible db itemId ownerId = some item →
      item.status = "donated" →
      FoodSrv.donate db itemId ownerId = (.alreadyDonated, db)) ∧
    (∀ item, FoodSrv.findVisible db itemId ownerId = some item →
      item.status ≠ "donated" →
      (FoodSrv.donate db itemId ownerId).1 =
        .ok (((FoodSrv.donate db itemId ownerId).2).find? (fun r => r.id == itemId)) ∧
      (∀ r ∈ (FoodSrv.donate db itemId ownerId).2, r.id = itemId → r.status = "donated") ∧
      FoodSrv.donate ((FoodSrv.donate db itemId ownerId).2) itemId ownerId =
        (.alreadyDonated, (FoodSrv.donate db itemId ownerId).2)) ∧
    (∀ (ndb : List NotifSrv.InvRow) (nn : List NotifSrv.Notification) (i o : ℕ),
      ((NotifSrv.donate ndb nn i o).2.2).length = nn.length + 1) := by
  refine ⟨?_, ?_, ?_, ?_⟩
  · intro h
    simp [FoodSrv.donate, h]
  · intro item h hd
    simp [FoodSrv.donate, h, hd]
  · intro item h hd
    have hdon : FoodSrv.donate db itemId ownerId =
        (.ok ((db.map (FoodSrv.setDonated itemId)).find? (fun r => r.id == itemId)),
         db.map (FoodSrv.setDonated itemId)) := by
      simp [FoodSrv.donate, h, hd]
    refine ⟨by rw [hdon], ?_, ?_⟩
    · intro r hr hid
      rw [hdon] at hr
      obtain ⟨r0, hr0, rfl⟩ := List.mem_map.1 hr
      by_cases hc : (r0.id == itemId) = true
      · simp [FoodSrv.setDonated, hc]
      · simp [FoodSrv.setDonated, hc] at hid
        exact absurd (by simpa using hid) hc
    · have hvi : FoodSrv.visibleRow itemId ownerId item = true := by
        have := List.find?_some (p := FoodSrv.visibleRow itemId ownerId) (l := db) h
        exact this
      have hid : (item.id == itemId) = true := by
        unfold FoodSrv.visibleRow at hvi
        exact ((Bool.and_eq_true _ _).mp hvi).1
      have hsd : FoodSrv.setDonated itemId item = { item with status := "donated" } := by
        simp [FoodSrv.setDonated, hid]
      have h2 : FoodSrv.findVisible (db.map (FoodSrv.setDonated itemId)) itemId ownerId =
          some { item with status := "donated" } := by
        rw [findVisible_map_setDonated, h]
        simp [hsd]
      rw [hdon]
      simp [FoodSrv.donate, h2]
  · intro ndb nn i o
    simp [NotifSrv.donate]

theorem C2_donate_witness :
    FoodSrv.donate ((FoodSrv.donate [⟨1, some 7, "Milk", 1, "Pantry", 5, "normal"⟩] 1 7).2) 1 7 =
      (.alreadyDonated, (FoodSrv.donate [⟨1, some 7, "Milk", 1, "Pantry", 5, "normal"⟩] 1 7).2) :=
  ((C2_donate_amended [⟨1, some 7, "Milk", 1, "Pantry", 5, "normal"⟩] 1 7).2.2.1
    ⟨1, some 7, "Milk", 1, "Pantry", 5, "normal"⟩ (by decide) (by decide)).2.2

theorem statusSum_bumpStatus (rep : FoodSrv.Report) (s : Status) :
    FoodSrv.statusSum (FoodSrv.bumpStatus rep s) = FoodSrv.statusSum rep + 1 := by
  cases s <;> simp [FoodSrv.bumpStatus, FoodSrv.statusSum] <;> omega

theorem statusSum_bumpCategory (rep : FoodSrv.Report) (c : String)
    (hc : c ∉ (["Donated", "Expired", "NearExpiry", "Available"] : List String)) :
    FoodSrv.statusSum (FoodSrv.bumpCategory rep c) = FoodSrv.statusSum rep := by
  simp only [List.mem_cons, List.not_mem_nil, or_false, not_or] at hc
  obtain ⟨h1, h2, h3, h4⟩ := hc
  unfold FoodSrv.bumpCategory
  split_ifs <;> simp_all [FoodSrv.statusSum]

theorem statusSum_foldl (today : ℤ) (rows : List FoodSrv.FoodRow) :
    ∀ rep : FoodSrv.Report,
      (∀ r ∈ rows, r.category ∉ (["Donated", "Expired", "NearExpiry", "Available"] : List String)) →
      FoodSrv.statusSum (rows.foldl (FoodSrv.reportStep today) rep) =
        FoodSrv.statusSum rep + rows.length := by
  induction rows with
  | nil => intro rep _; simp
  | cons x xs ih =>
    intro rep h
    simp only [List.foldl_cons, List.length_cons]
    rw [ih _ (fun r hr => h r (List.mem_cons_of_mem _ hr))]
    unfold FoodSrv.reportStep
    rw [statusSum_bumpStatus, statusSum_bumpCategory _ _ (h x (List.mem_cons_self x xs))]
    omega

/-- C6 counterexample: the report handler shares one counter object between
category counts and status counts, so a single row whose category string is
"Donated" bumps the Donated counter in the category step and a second status
counter in the status step — the four status counters then sum to 2 for a
one-element list. -/
theorem C6_counterexample :
    FoodSrv.statusSum (FoodSrv.summarize [⟨1, none, "Rice", 1, "Donated", 0, "normal"⟩] 0) = 2 ∧
    ([⟨1, none, "Rice", 1, "Donated", 0, "normal"⟩] : List FoodSrv.FoodRow).length = 1 := by
  constructor
  · rfl
  · rfl

/-- C6 amended: for every list of items whose category strings avoid the
four status counter keys (which includes every item admitted by validation,
whose category is Refrigerated, Pantry or Frozen), the report loop increments
exactly one of the four status counters per item, so Donated + Expired +
NearExpiry + Available equals the number of items. -/
theorem C6_sum_invariant (rows : List FoodSrv.FoodRow) (today : ℤ)
    (h : ∀ r ∈ rows,
      r.category ∉ (["Donated", "Expired", "NearExpiry", "Available"] : List String)) :
    FoodSrv.statusSum (FoodSrv.summarize rows today) = rows.length := by
  unfold FoodSrv.summarize
  rw [statusSum_foldl today rows FoodSrv.emptyReport h]
  simp [FoodSrv.statusSum, FoodSrv.emptyReport]

theorem C6_sum_invariant_witness :
    FoodSrv.statusSum
      (FoodSrv.summarize [⟨1, some 7, "Milk", 2, "Refrigerated", 2, "normal"⟩,
                          ⟨2, none, "Rice", 1, "Pantry", 9, "donated"⟩] 0) =
      ([⟨1, some 7, "Milk", 2, "Refrigerated", 2, "normal"⟩,
        ⟨2, none, "Rice", 1, "Pantry", 9, "donated"⟩] : List FoodSrv.FoodRow).length :=
  C6_sum_invariant _ 0 (by decide)

theorem validateTail_eq_none_iff (t : String) (cond2 : Prop) [Decidable cond2]
    (c : String) (msg2 : String) :
    ((if t = "" then JsOutcome.value (α := Option String) (some "Name required")
      else if cond2 then .value (some msg2)
      else if c ∉ (["Refrigerated", "Pantry", "Frozen"] : List String) then
        .value (some "Category invalid")
      else .value none) = JsOutcome.value none) ↔
      (t ≠ "" ∧ ¬cond2 ∧ c ∈ (["Refrigerated", "Pantry", "Frozen"] : List String)) := by
  split_ifs <;> simp_all

/-- C7 counterexample: the notifications-variant validateItem accepts the
draft with name "Milk", category "Refrigerated" and the non-integer
quantity 5/2 = 2.5, contradicting the claim that every draft with a
non-integer quantity is rejected. -/
theorem C7_counterexample :
    NotifSrv.validateItem (JsVal.str "Milk") twoPointFive "Refrigerated" =
      JsOutcome.value none ∧ twoPointFive.den ≠ 1 := by
  constructor
  · decide
  · decide

/-- C7 amended: the food_items-variant validateItem accepts a string-named
draft exactly when the name trims to a non-empty string, the quantity is a
positive integer, and the category is in the fixed enumeration (so 2.5 is
rejected there); the notifications-variant validateItem checks only that the
quantity is positive, with no integer requirement. -/
theorem C7_validate (s : String) (q : ℚ) (c : String) :
    (FoodSrv.validateItem (JsVal.str s) q c = JsOutcome.value none ↔
      (jsTrimStr s ≠ "" ∧ q.den = 1 ∧ 0 < q ∧
        c ∈ (["Refrigerated", "Pantry", "Frozen"] : List String))) ∧
    (NotifSrv.validateItem (JsVal.str s) q c = JsOutcome.value none ↔
      (jsTrimStr s ≠ "" ∧ 0 < q ∧
        c ∈ (["Refrigerated", "Pantry", "Frozen"] : List String))) := by
  have hq1 : ¬(q.den ≠ 1 ∨ q ≤ 0) ↔ (q.den = 1 ∧ 0 < q) := by
    rw [not_or, not_not, not_le]
  have hq2 : ¬(q = 0 ∨ q ≤ 0) ↔ 0 < q := by
    constructor
    · intro h
      exact lt_of_not_le fun hle => h (Or.inr hle)
    · intro h hcon
      rcases hcon with rfl | hle
      · exact lt_irrefl 0 h
      · exact absurd h (not_lt.2 hle)
  constructor
  · by_cases hs : s = ""
    · subst hs
      have h0 : jsTrimStr "" = "" := by decide
      simp [FoodSrv.validateItem, jsFalsy, h0]
    · have hfal : jsFalsy (JsVal.str s) = false := by simp [jsFalsy, hs]
      simp only [FoodSrv.validateItem, hfal, Bool.false_eq_true, if_false, jsTrim]
      rw [validateTail_eq_none_iff]
      rw [hq1]
      constructor
      · rintro ⟨a, ⟨b1, b2⟩, d⟩
        exact ⟨a, b1, b2, d⟩
      · rintro ⟨a, b1, b2, d⟩
        exact ⟨a, ⟨b1, b2⟩, d⟩
  · simp only [NotifSrv.validateItem, jsTrim]
    rw [validateTail_eq_none_iff, hq2]

/-- C9: with a valid draft, the notifications-variant create handler persists
fixDate(expiry_date) — the submitted day shifted forward by exactly one —
and echoes the shifted date in the response; the update handler likewise
overwrites matching rows with the shifted date, never the submitted one. -/
theorem C9_fixdate_shift (db : List NotifSrv.InvRow) (notifs : List NotifSrv.Notification)
    (u : ℕ) (s : String) (q : ℚ) (c : String) (d : ℤ) (nid itemId : ℕ)
    (hv : NotifSrv.validateItem (JsVal.str s) q c = JsOutcome.value none) :
    NotifSrv.postInventory db notifs u (.str s) q c d nid =
      (.created ⟨nid, .str s, q, c, d + 1, "available"⟩,
       db ++ [⟨nid, u, jsTrimStr s, q, c, d + 1, "normal"⟩],
       notifs ++ [⟨u, "New Item Added", "You added " ++ jsTrimStr s⟩]) ∧
    NotifSrv.fixDate d ≠ d ∧
    NotifSrv.fixDate d - d = 1 ∧
    (∀ r ∈ (NotifSrv.putInventory db itemId u (.str s) q c d).2,
      r ∈ db ∨ r.expiry_date = d + 1) := by
  refine ⟨?_, ?_, ?_, ?_⟩
  · simp [NotifSrv.postInventory, hv, jsTrim, NotifSrv.fixDate]
  · simp [NotifSrv.fixDate]
  · simp [NotifSrv.fixDate]
  · intro r hr
    simp only [NotifSrv.putInventory, hv, jsTrim, NotifSrv.fixDate] at hr
    obtain ⟨r0, h0, rfl⟩ := List.mem_map.1 hr
    unfold NotifSrv.updateRow
    split
    · right
      rfl
    · left
      exact h0

theorem C9_fixdate_shift_witness :
    NotifSrv.postInventory [] [] 7 (.str "Milk") 2 "Refrigerated" 10 1 =
      (.created ⟨1, .str "Milk", 2, "Refrigerated", 10 + 1, "available"⟩,
       [] ++ [⟨1, 7, jsTrimStr "Milk", 2, "Refrigerated", 10 + 1, "normal"⟩],
       [] ++ [⟨7, "New Item Added", "You added " ++ jsTrimStr "Milk"⟩]) :=
  (C9_fixdate_shift [] [] 7 "Milk" 2 "Refrigerated" 10 1 0 (by decide)).1

/-- C10: the notifications-variant validateItem dereferences name.trim()
without a presence check, so any request body whose name field is absent or
not a string makes validateItem — and with it the POST /inventory and
PUT /inventory/:id handlers — throw a TypeError instead of returning the
Name required 400 response; no state is touched. -/
theorem C10_typeerror (name : JsVal) (q : ℚ) (c : String)
    (db : List NotifSrv.InvRow) (notifs : List NotifSrv.Notification)
    (u : ℕ) (d : ℤ) (nid itemId : ℕ)
    (h : ∀ s, name ≠ JsVal.str s) :
    NotifSrv.validateItem name q c = .thrown .typeError ∧
    NotifSrv.postInventory db notifs u name q c d nid = (.thrown .typeError, db, notifs) ∧
    NotifSrv.putInventory db itemId u name q c d = (.thrown .typeError, db) := by
  have ht : jsTrim name = .thrown .typeError := by
    cases name with
    | str t => exact absurd rfl (h t)
    | num q => rfl
    | boolean b => rfl
    | jsNull => rfl
    | undef => rfl
  have hval : NotifSrv.validateItem name q c = .thrown .typeError := by
    unfold NotifSrv.validateItem
    rw [ht]
  refine ⟨hval, ?_, ?_⟩
  · simp [NotifSrv.postInventory, hval]
  · simp [NotifSrv.putInventory, hval]

namespace Reg

/-!
Embedding of the POST /auth/register handler of src/server.js lines 121-154:
the verification-code lookup SELECT ... WHERE email = ? AND code = ? AND
expires_at > NOW() ORDER BY id DESC LIMIT 1, followed by the duplicate-email
check and the user INSERT.
-/

/-- Row of the verification_codes table; id is the monotonically increasing
primary key, so a larger id means a more recently issued code. -/
structure CodeRow where
  id : ℕ
  email : String
  code : String
  expires_at : ℤ
deriving DecidableEq, Repr

/-- Row of the users table. -/
structure UserRow where
  id : ℕ
  email : String
  password_hash : String
deriving DecidableEq, Repr

/-- WHERE clause of the code lookup: email and code match and the expiry is
strictly in the future. -/
def codeMatches (email code : String) (now : ℤ) (r : CodeRow) : Bool :=
  r.email == email && r.code == code && decide (now < r.expires_at)

/-- Accumulator step choosing the row with the greatest id, realising
ORDER BY id DESC LIMIT 1 over the matching rows. -/
def pickLatest (acc : Option CodeRow) (r : CodeRow) : Option CodeRow :=
  match acc with
  | none => some r
  | some a => if a.id < r.id then some r else some a

/-- Result of the code lookup query: the most recently issued matching,
unexpired row, if any. -/
def latestCode (codes : List CodeRow) (email code : String) (now : ℤ) :
    Option CodeRow :=
  (codes.filter (codeMatches email code now)).foldl pickLatest none

/-- Model of the bcrypt.hash collaborator: an injective placeholder digest. -/
def bcryptHash (password : String) : String := "$2b$10$" ++ password

/-- Observable outcome of the register handler. -/
inductive RegResult where
  | badRequest (error : String)
  | conflict (error : String)
  | created (message : String)
deriving DecidableEq, Repr

/-- POST /auth/register handler (src/server.js lines 121-154): missing
fields are rejected first, then the code lookup; an empty lookup yields the
invalid-or-expired 400 before any user is touched; otherwise the duplicate
check runs and the user row is inserted. -/
def register (users : List UserRow) (codes : List CodeRow)
    (email password verificationCode : String) (now : ℤ) (nextId : ℕ) :
    RegResult × List UserRow :=
  if email = "" ∨ password = "" then (.badRequest "Email & password required", users)
  else
    match latestCode codes email verificationCode now with
    | none => (.badRequest "Invalid or expired verification code", users)
    | some _ =>
      if users.any (fun u => u.email == email) then
        (.conflict "Email already registered", users)
      else
        (.created "Registered successfully", users ++ [⟨nextId, email, bcryptHash password⟩])

end Reg

theorem foldl_pickLatest_isSome (l : List Reg.CodeRow) (a : Reg.CodeRow) :
    l.foldl Reg.pickLatest (some a) ≠ none := by
  induction l generalizing a with
  | nil => simp
  | cons x xs ih =>
    simp only [List.foldl_cons, Reg.pickLatest]
    split
    · exact ih x
    · exact ih a

theorem latestCode_eq_none_iff (codes : List Reg.CodeRow) (e c : String) (now : ℤ) :
    Reg.latestCode codes e c now = none ↔
      codes.filter (Reg.codeMatches e c now) = [] := by
  unfold Reg.latestCode
  cases h : codes.filter (Reg.codeMatches e c now) with
  | nil => simp
  | cons x xs =>
    constructor
    · intro hn
      simp only [List.foldl_cons, Reg.pickLatest] at hn
      exact absurd hn (foldl_pickLatest_isSome xs x)
    · intro hc
      cases hc

theorem foldl_pickLatest_mem (l : List Reg.CodeRow) :
    ∀ (acc : Option Reg.CodeRow) (r : Reg.CodeRow),
      l.foldl Reg.pickLatest acc = some r → acc = some r ∨ r ∈ l := by
  induction l with
  | nil =>
    intro acc r h
    exact Or.inl h
  | cons x xs ih =>
    intro acc r h
    simp only [List.foldl_cons] at h
    rcases ih (Reg.pickLatest acc x) r h with h1 | h1
    · cases acc with
      | none =>
        simp only [Reg.pickLatest] at h1
        right
        rw [← Option.some.inj h1]
        exact List.mem_cons_self x xs
      | some a =>
        simp only [Reg.pickLatest] at h1
        split at h1
        · right
          rw [← Option.some.inj h1]
          exact List.mem_cons_self x xs
        · exact Or.inl h1
    · exact Or.inr (List.mem_cons_of_mem _ h1)

theorem foldl_pickLatest_ge (l : List Reg.CodeRow) :
    ∀ (acc : Option Reg.CodeRow) (r : Reg.CodeRow),
      l.foldl Reg.pickLatest acc = some r →
      (∀ a, acc = some a → a.id ≤ r.id) ∧ (∀ x ∈ l, x.id ≤ r.id) := by
  induction l with
  | nil =>
    intro acc r h
    refine ⟨fun a ha => ?_, fun x hx => absurd hx (List.not_mem_nil x)⟩
    rw [ha] at h
    rw [Option.some.inj h]
  | cons x xs ih =>
    intro acc r h
    simp only [List.foldl_cons] at h
    obtain ⟨hacc, hmem⟩ := ih (Reg.pickLatest acc x) r h
    have hx : x.id ≤ r.id := by
      cases acc with
      | none => exact hacc x rfl
      | some a =>
        by_cases hlt : a.id < x.id
        · exact hacc x (by simp [Reg.pickLatest, hlt])
        · have hb := hacc a (by simp [Reg.pickLatest, hlt])
          omega
    refine ⟨?_, ?_⟩
    · intro a ha
      subst ha
      by_cases hlt : a.id < x.id
      · have := hacc x (by simp [Reg.pickLatest, hlt])
        omega
      · exact hacc a (by simp [Reg.pickLatest, hlt])
    · intro y hy
      rcases List.mem_cons.1 hy with rfl | hy2
      · exact hx
      · exact hmem y hy2

/-- C8: with both fields present, the registration code check accepts
exactly when some stored verification record for the email matches the
submitted code with an expiry strictly in the future; the selected record is
the most recently issued (greatest id) such record, and when none exists the
handler returns the invalid-or-expired 400 with the users table unchanged. -/
theorem C8_code_check (users : List Reg.UserRow) (codes : List Reg.CodeRow)
    (email password code : String) (now : ℤ) (nextId : ℕ)
    (he : email ≠ "") (hp : password ≠ "") :
    (codes.filter (Reg.codeMatches email code now) = [] →
      Reg.register users codes email password code now nextId =
        (.badRequest "Invalid or expired verification code", users)) ∧
    (codes.filter (Reg.codeMatches email code now) ≠ [] →
      ∃ r, Reg.latestCode codes email code now = some r ∧
        Reg.codeMatches email code now r = true ∧
        r ∈ codes ∧
        (∀ x ∈ codes, Reg.codeMatches email code now x = true → x.id ≤ r.id) ∧
        (Reg.register users codes email password code now nextId).1 ≠
          .badRequest "Invalid or expired verification code") := by
  have hep : ¬(email = "" ∨ password = "") := by
    rintro (h | h)
    · exact he h
    · exact hp h
  constructor
  · intro hf
    have hn : Reg.latestCode codes email code now = none :=
      (latestCode_eq_none_iff codes email code now).2 hf
    simp [Reg.register, hep, hn]
  · intro hf
    have hn : Reg.latestCode codes email code now ≠ none := fun h =>
      hf ((latestCode_eq_none_iff codes email code now).1 h)
    obtain ⟨r, hr⟩ := Option.ne_none_iff_exists'.1 hn
    have hrf : Reg.latestCode codes email code now = some r := hr
    have hmem0 := foldl_pickLatest_mem (codes.filter (Reg.codeMatches email code now)) none r hrf
    have hrfilter : r ∈ codes.filter (Reg.codeMatches email code now) := by
      rcases hmem0 with h0 | h0
      · cases h0
      · exact h0
    obtain ⟨hrcodes, hrmatch⟩ := List.mem_filter.1 hrfilter
    refine ⟨r, hrf, hrmatch, hrcodes, ?_, ?_⟩
    · intro x hx hmx
      have hxf : x ∈ codes.filter (Reg.codeMatches email code now) :=
        List.mem_filter.2 ⟨hx, hmx⟩
      exact (foldl_pickLatest_ge (codes.filter (Reg.codeMatches email code now)) none r hrf).2
        x hxf
    · simp only [Reg.register, hep, if_false, hrf]
      split <;> simp

theorem C8_code_check_witness :
    ([⟨1, "a@x.com", "123456", 100⟩] : List Reg.CodeRow).filter
        (Reg.codeMatches "a@x.com" "123456" 0) ≠ [] ∧
    (Reg.register [] [⟨1, "a@x.com", "123456", 100⟩] "a@x.com" "pw" "123456" 0 5).1 ≠
      .badRequest "Invalid or expired verification code" := by
  have h := (C8_code_check [] [⟨1, "a@x.com", "123456", 100⟩] "a@x.com" "pw" "123456" 0 5
    (by decide) (by decide)).2 (by decide)
  obtain ⟨r, _, _, _, _, hlast⟩ := h
  exact ⟨by decide, hlast⟩

namespace Auth

/-!
Embedding of src/auth.js.  The jsonwebtoken collaborator is not part of the
repository; its sign/verify behaviour is modelled from the spec: a signed
token carries exactly the payload claims id and email plus issued-at and
expiry timestamps, the signature binds the secret to the claims (modelled as
the idealised pair of both), verification fails on a signature mismatch or
once the expiry has passed, and trusts the claims otherwise.
-/

/-- Identity passed to signToken: { id, email }. -/
structure Identity where
  id : ℕ
  email : String
deriving DecidableEq, Repr

/-- Claim set of a verified token: { id, email, iat, exp }, timestamps in
seconds. -/
structure Claims where
  id : ℕ
  email : String
  iat : ℤ
  exp : ℤ
deriving DecidableEq, Repr

/-- Errors thrown by the auth helpers: the missing-secret configuration
error from requireSecret, and the jsonwebtoken verification failures. -/
inductive AuthErr where
  | configuration
  | invalidSignature
  | expired
deriving DecidableEq, Repr

/-- A signed bearer token: the encoded claims plus an idealised MAC binding
the signing secret to those claims. -/
structure SignedToken where
  claims : Claims
  sig : String × Claims
deriving DecidableEq, Repr

/-- Default lifetime used by signToken when no expiresIn option is given:
"2h", i.e. 7200 seconds. -/
def defaultExpiresIn : ℤ := 7200

/-- signToken from src/auth.js lines 21-26: require the configured secret,
default the ttl to 2h, and sign the payload { id, email }; jsonwebtoken
stamps iat with the current time and exp with iat + ttl. -/
def signToken (user : Identity) (expiresIn : Option ℤ) (jwtSecret : Option String)
    (now : ℤ) : Except AuthErr SignedToken :=
  match jwtSecret with
  | none => .error .configuration
  | some secret =>
    let ttl := expiresIn.getD defaultExpiresIn
    let claims : Claims := ⟨user.id, user.email, now, now + ttl⟩
    .ok ⟨claims, (secret, claims)⟩

/-- verifyToken from src/auth.js lines 34-37: require the secret, then
jsonwebtoken checks the signature and the expiry and returns the claims. -/
def verifyToken (t : SignedToken) (jwtSecret : Option String) (now : ℤ) :
    Except AuthErr Claims :=
  match jwtSecret with
  | none => .error .configuration
  | some secret =>
    if t.sig ≠ (secret, t.claims) then .error .invalidSignature
    else if t.claims.exp ≤ now then .error .expired
    else .ok t.claims

/-- Outcome of the authRequired middleware: either the request proceeds with
the verified claims attached, or it is denied with an HTTP status and a JSON
error body. -/
inductive AuthResult where
  | granted (payload : Claims)
  | denied (status : ℕ) (errorBody : String)
deriving DecidableEq, Repr

/-- Bearer-token extraction of authRequired (src/auth.js lines 46-47):
auth.startsWith("Bearer ") ? auth.slice(7).trim() : null.  The string
operations are modelled over the character lists of the strings. -/
def bearerToken (authHeader : Option String) : Option String :=
  let a := authHeader.getD ""
  if ("Bearer ").data.isPrefixOf a.data then some (jsTrimStr ⟨a.data.drop 7⟩)
  else none

/-- authRequired from src/auth.js lines 45-58, parameterised by the verifier
applied to the extracted token text (verifyToken with the ambient secret and
clock).  A null or empty token is falsy and denied as missing; a token that
fails verification is denied with the other message. -/
def authRequired (verify : String → Except AuthErr Claims)
    (authHeader : Option String) : AuthResult :=
  match bearerToken authHeader with
  | none => .denied 401 "Missing token"
  | some t =>
    if t = "" then .denied 401 "Missing token"
    else
      match verify t with
      | .ok payload => .granted payload
      | .error _ => .denied 401 "Invalid or expired token"

end Auth

/-- C3 counterexample: under any verifier that rejects the presented token,
the 401 produced for an absent credential carries the body Missing token
while the 401 produced for a failing credential carries the body Invalid or
expired token — the two bodies differ, so a caller can distinguish the
cases. -/
theorem C3_counterexample :
    Auth.authRequired (fun _ => .error .invalidSignature) none =
      .denied 401 "Missing token" ∧
    Auth.authRequired (fun _ => .error .invalidSignature) (some "Bearer abc") =
      .denied 401 "Invalid or expired token" ∧
    "Missing token" ≠ "Invalid or expired token" := by
  refine ⟨rfl, ?_, by decide⟩
  have h : Auth.bearerToken (some "Bearer abc") = some "abc" := by decide
  simp [Auth.authRequired, h]

/-- C3 amended: a missing bearer credential and a credential that fails
verification both yield HTTP status 401, but with different error bodies —
Missing token versus Invalid or expired token — so the response does
distinguish the two cases. -/
theorem C3_distinct_bodies (verify : String → Except Auth.AuthErr Auth.Claims)
    (authHeader : Option String) :
    (Auth.bearerToken authHeader = none →
      Auth.authRequired verify authHeader = .denied 401 "Missing token") ∧
    (∀ t, Auth.bearerToken authHeader = some t → t = "" →
      Auth.authRequired verify authHeader = .denied 401 "Missing token") ∧
    (∀ t e, Auth.bearerToken authHeader = some t → t ≠ "" → verify t = .error e →
      Auth.authRequired verify authHeader = .denied 401 "Invalid or expired token") ∧
    "Missing token" ≠ "Invalid or expired token" := by
  refine ⟨?_, ?_, ?_, by decide⟩
  · intro h
    simp [Auth.authRequired, h]
  · intro t h ht
    subst ht
    simp [Auth.authRequired, h]
  · intro t e h ht hv
    simp [Auth.authRequired, h, ht, hv]

theorem C3_distinct_bodies_witness :
    Auth.authRequired (fun _ => .error .expired) none = .denied 401 "Missing token" ∧
    Auth.authRequired (fun _ => .error .expired) (some "Bearer xyz") =
      .denied 401 "Invalid or expired token" :=
  ⟨(C3_distinct_bodies (fun _ => .error .expired) none).1 (by decide),
   (C3_distinct_bodies (fun _ => .error .expired) (some "Bearer xyz")).2.2.1
     "xyz" .expired (by decide) (by decide) rfl⟩

/-- C5: issuing a token for an identity and then verifying it (with the same
configured secret, before expiry) returns the identity's id and email
unchanged, and the claim set satisfies exp - iat = requested ttl, with the
default ttl equal to 7200 seconds. -/
theorem C5_issue_verify_roundtrip (i : ℕ) (email : String) (expiresIn : Option ℤ)
    (secret : String) (now : ℤ) (h : 0 < expiresIn.getD Auth.defaultExpiresIn) :
    ∃ tok : Auth.SignedToken,
      Auth.signToken ⟨i, email⟩ expiresIn (some secret) now = .ok tok ∧
      Auth.verifyToken tok (some secret) now = .ok tok.claims ∧
      tok.claims.id = i ∧
      tok.claims.email = email ∧
      tok.claims.exp - tok.claims.iat = expiresIn.getD Auth.defaultExpiresIn ∧
      Auth.defaultExpiresIn = 7200 := by
  refine ⟨⟨⟨i, email, now, now + expiresIn.getD Auth.defaultExpiresIn⟩,
    (secret, ⟨i, email, now, now + expiresIn.getD Auth.defaultExpiresIn⟩)⟩,
    rfl, ?_, rfl, rfl, by ring, rfl⟩
  have hlt : ¬(now + expiresIn.getD Auth.defaultExpiresIn ≤ now) := by omega
  simp [Auth.verifyToken, hlt]

theorem C5_issue_verify_roundtrip_witness :
    ∃ tok : Auth.SignedToken,
      Auth.signToken ⟨1, "a@x.com"⟩ none (some "s3cret") 0 = .ok tok ∧
      Auth.verifyToken tok (some "s3cret") 0 = .ok tok.claims ∧
      tok.claims.id = 1 ∧
      tok.claims.email = "a@x.com" ∧
      tok.claims.exp - tok.claims.iat = (none : Option ℤ).getD Auth.defaultExpiresIn ∧
      Auth.defaultExpiresIn = 7200 :=
  C5_issue_verify_roundtrip 1 "a@x.com" none "s3cret" 0 (by decide)

theorem C10_typeerror_witness :
    NotifSrv.validateItem JsVal.undef 2 "Refrigerated" = .thrown .typeError ∧
    NotifSrv.postInventory [] [] 7 JsVal.undef 2 "Refrigerated" 10 1 =
      (.thrown .typeError, [], []) ∧
    NotifSrv.putInventory [] 1 7 JsVal.undef 2 "Refrigerated" 10 =
      (.thrown .typeError, []) :=
  C10_typeerror JsVal.undef 2 "Refrigerated" [] [] 7 10 1 1
    (fun _ h => JsVal.noConfusion h)
